import Mathlib

/-!
Verification of the moodleapp components shown in src/: the calendar
upcoming-events component, the email-signup page and the site-plugins helper
service. Each TypeScript method relevant to the claims is embedded as a pure
Lean function; web-service calls, downloads and other effects are passed in
as explicit results (Except values or oracle functions).
-/

/-! ## Calendar upcoming-events component -/

/-- Calendar event as handled by the upcoming-events component; only the
fields the component reads or writes are modelled. Times are in seconds. -/
structure CalendarEvent where
  id : Int
  timestart : Int
  timeduration : Int
  deleted : Bool
deriving DecidableEq, Repr

/-- Calendar event sort order: by start time, ties broken by duration. -/
def eventLE (a b : CalendarEvent) : Prop :=
  a.timestart < b.timestart ∨ (a.timestart = b.timestart ∧ a.timeduration ≤ b.timeduration)

instance : DecidableRel eventLE := fun a b => by
  unfold eventLE
  exact inferInstance

instance : IsTotal CalendarEvent eventLE :=
  ⟨by intro a b; unfold eventLE; omega⟩

instance : IsTrans CalendarEvent eventLE :=
  ⟨by intro a b c; unfold eventLE; omega⟩

/-- Modelled from the spec: AddonCalendarHelper.sortEvents (the calendar
helper service is not in src); it realises the "list sort order" the spec
mentions, a stable sort of the events in the order eventLE. -/
def sortEvents (events : List CalendarEvent) : List CalendarEvent :=
  events.insertionSort eventLE

/-- Modelled from the spec: CoreConstants.SECONDS_DAY (the constants module is
not in src), the number of seconds in one day, used for the look-ahead window
of "lookAhead days". -/
def SECONDS_DAY : Int := 86400

/-- Embedding of AddonCalendarUpcomingEventsComponent.mergeEvents. The current
time in seconds (Date.now() / 1000) is passed as the parameter start. -/
def mergeEvents (start lookAhead : Int) (onlineEvents offlineEvents : List CalendarEvent)
    (deletedEvents : List Int) : List CalendarEvent :=
  if offlineEvents.length = 0 ∧ deletedEvents.length = 0 then
    onlineEvents
  else
    let endTime : Int := start + SECONDS_DAY * lookAhead
    let result1 : List CalendarEvent :=
      if deletedEvents.length ≠ 0 then
        onlineEvents.map fun event => { event with deleted := decide (event.id ∈ deletedEvents) }
      else onlineEvents
    let result2 : List CalendarEvent :=
      if offlineEvents.length ≠ 0 then
        result1.filter fun event => (offlineEvents.find? fun ev => ev.id == event.id).isNone
      else result1
    let periodOfflineEvents : List CalendarEvent :=
      offlineEvents.filter fun event =>
        (decide (start ≤ event.timestart) || decide (start ≤ event.timestart + event.timeduration))
          && decide (event.timestart ≤ endTime)
    sortEvents (result2 ++ periodOfflineEvents)

/-- Claim-side reading of C5: an online event keeps its deleted flag when the
deleted-events list is empty, and otherwise has it set exactly when its id is
in that list. -/
def markOfflineDeleted (deletedEvents : List Int) (e : CalendarEvent) : CalendarEvent :=
  if deletedEvents = [] then e else { e with deleted := decide (e.id ∈ deletedEvents) }

/-- Claim-side reading of C5: the time span of an event intersects the
look-ahead window running from start to endTime. -/
def inLookAheadWindow (start endTime : Int) (e : CalendarEvent) : Prop :=
  start ≤ e.timestart + e.timeduration ∧ e.timestart ≤ endTime

instance (start endTime : Int) (e : CalendarEvent) :
    Decidable (inLookAheadWindow start endTime e) := by
  unfold inLookAheadWindow
  exact inferInstance

/-- Embedding of AddonCalendarUpcomingEventsComponent.undeleteEvent: clear the
deleted flag of the first online event whose id matches. -/
def undeleteEventList (eventId : Int) : List CalendarEvent → List CalendarEvent
  | [] => []
  | e :: rest =>
    if e.id = eventId then { e with deleted := false } :: rest
    else e :: undeleteEventList eventId rest

/-- Payload of an UNDELETED_EVENT_EVENT notification. -/
structure UpdatedEventData where
  eventId : Int
deriving DecidableEq, Repr

/-- State of the upcoming-events component as visible to the undelete-event
observer. -/
structure UpcomingEventsState where
  events : List CalendarEvent
  filteredEvents : List CalendarEvent
  onlineEvents : List CalendarEvent
  offlineEvents : List CalendarEvent
  deletedEvents : List Int
  lookAhead : Int
  loaded : Bool
deriving DecidableEq, Repr

/-- Embedding of the undeleteEventObserver callback registered in the
component constructor: on a notification carrying a truthy eventId, clear the
deleted flag of the matching online event and drop the id from the
deleted-events list; otherwise do nothing. -/
def undeleteEventObserverHandler (data : Option UpdatedEventData) (s : UpcomingEventsState) :
    UpcomingEventsState :=
  match data with
  | none => s
  | some d =>
    if d.eventId = 0 then s
    else
      { s with
        onlineEvents := undeleteEventList d.eventId s.onlineEvents
        deletedEvents := s.deletedEvents.erase d.eventId }

/-! ### Helper lemmas for the calendar component -/

lemma find?_isNone_eq_not_any {α : Type} (p : α → Bool) (l : List α) :
    (l.find? p).isNone = !l.any p := by
  induction l with
  | nil => rfl
  | cons a t ih =>
    cases hpa : p a <;> simp [List.find?_cons, hpa, ih]

lemma markOfflineDeleted_map_nil (l : List CalendarEvent) :
    l.map (markOfflineDeleted []) = l := by
  have h : ∀ e ∈ l, markOfflineDeleted [] e = e := by
    intro e _
    unfold markOfflineDeleted
    rw [if_pos rfl]
  rw [List.map_congr_left h, List.map_id']

lemma period_cond_eq (start endTime : Int) (e : CalendarEvent) (h : 0 ≤ e.timeduration) :
    ((decide (start ≤ e.timestart) || decide (start ≤ e.timestart + e.timeduration))
        && decide (e.timestart ≤ endTime)) = decide (inLookAheadWindow start endTime e) := by
  unfold inLookAheadWindow
  by_cases h1 : start ≤ e.timestart + e.timeduration
  · by_cases h2 : e.timestart ≤ endTime <;>
      by_cases h3 : start ≤ e.timestart <;> simp [h1, h2, h3]
  · have h3 : ¬ start ≤ e.timestart := by omega
    simp [h1, h3]

lemma undeleteEventList_eq_map (eventId : Int) (l : List CalendarEvent)
    (h : (l.map fun e => e.id).Nodup) :
    undeleteEventList eventId l =
      l.map fun e => if e.id = eventId then { e with deleted := false } else e := by
  induction l with
  | nil => rfl
  | cons a t ih =>
    simp only [List.map_cons, List.nodup_cons, List.mem_map] at h
    by_cases ha : a.id = eventId
    · unfold undeleteEventList
      rw [if_pos ha, List.map_cons, if_pos ha]
      have hnone : ∀ e ∈ t, (if e.id = eventId then { e with deleted := false } else e) = e := by
        intro e he
        rw [if_neg]
        intro hc
        exact h.1 ⟨e, he, by rw [hc, ha]⟩
      rw [List.map_congr_left hnone, List.map_id']
    · unfold undeleteEventList
      rw [if_neg ha, List.map_cons, if_neg ha, ih h.2]

lemma mergeEvents_def (start lookAhead : Int) (onlineEvents offlineEvents : List CalendarEvent)
    (deletedEvents : List Int) :
    mergeEvents start lookAhead onlineEvents offlineEvents deletedEvents =
      if offlineEvents.length = 0 ∧ deletedEvents.length = 0 then onlineEvents
      else
        sortEvents
          ((if offlineEvents.length ≠ 0 then
              (if deletedEvents.length ≠ 0 then
                 onlineEvents.map fun event =>
                   { event with deleted := decide (event.id ∈ deletedEvents) }
               else onlineEvents).filter fun event =>
                (offlineEvents.find? fun ev => ev.id == event.id).isNone
            else
              (if deletedEvents.length ≠ 0 then
                 onlineEvents.map fun event =>
                   { event with deleted := decide (event.id ∈ deletedEvents) }
               else onlineEvents)) ++
            offlineEvents.filter fun event =>
              (decide (start ≤ event.timestart)
                  || decide (start ≤ event.timestart + event.timeduration))
                && decide (event.timestart ≤ start + SECONDS_DAY * lookAhead)) := rfl

lemma markOfflineDeleted_map_ne (deletedEvents : List Int) (h : deletedEvents ≠ [])
    (l : List CalendarEvent) :
    (l.map fun event => { event with deleted := decide (event.id ∈ deletedEvents) }) =
      l.map (markOfflineDeleted deletedEvents) := by
  apply List.map_congr_left
  intro e _
  unfold markOfflineDeleted
  rw [if_neg h]

lemma marked_eq (deletedEvents : List Int) (l : List CalendarEvent) :
    (if deletedEvents.length ≠ 0 then
       l.map fun event => { event with deleted := decide (event.id ∈ deletedEvents) }
     else l) = l.map (markOfflineDeleted deletedEvents) := by
  by_cases h : deletedEvents = []
  · subst h
    rw [markOfflineDeleted_map_nil, if_neg (by simp)]
  · rw [if_pos (by simp [List.length_eq_zero, h]), markOfflineDeleted_map_ne deletedEvents h]

lemma offline_filter_eq (offlineEvents l : List CalendarEvent) :
    (l.filter fun event => (offlineEvents.find? fun ev => ev.id == event.id).isNone) =
      l.filter fun e => !offlineEvents.any fun off => off.id == e.id := by
  apply List.filter_congr
  intro x _
  exact find?_isNone_eq_not_any _ _

lemma unmodified_filter_eq (offlineEvents l : List CalendarEvent) :
    (if offlineEvents.length ≠ 0 then
       l.filter fun event => (offlineEvents.find? fun ev => ev.id == event.id).isNone
     else l) = l.filter fun e => !offlineEvents.any fun off => off.id == e.id := by
  by_cases h : offlineEvents = []
  · subst h
    rw [if_neg (by simp)]
    simp
  · rw [if_pos (by simp [List.length_eq_zero, h]), offline_filter_eq]

lemma period_filter_eq (start endTime : Int) (offlineEvents : List CalendarEvent)
    (hdur : ∀ e ∈ offlineEvents, 0 ≤ e.timeduration) :
    (offlineEvents.filter fun event =>
        (decide (start ≤ event.timestart) || decide (start ≤ event.timestart + event.timeduration))
          && decide (event.timestart ≤ endTime)) =
      offlineEvents.filter fun e => decide (inLookAheadWindow start endTime e) := by
  apply List.filter_congr
  intro x hx
  exact period_cond_eq start endTime x (hdur x hx)

/-! ### Claims C5 and C6: mergeEvents -/

/-- Claim C5: mergeEvents keeps every online event not modified offline, with
its deleted flag set exactly when its id is in a non-empty deleted-events
list, plus exactly the offline events whose time span intersects the
look-ahead window; with no offline and no deleted events the online list is
returned unchanged. -/
theorem mergeEvents_merges (start lookAhead : Int)
    (onlineEvents offlineEvents : List CalendarEvent) (deletedEvents : List Int)
    (hdur : ∀ e ∈ offlineEvents, 0 ≤ e.timeduration) :
    (offlineEvents = [] → deletedEvents = [] →
      mergeEvents start lookAhead onlineEvents offlineEvents deletedEvents = onlineEvents) ∧
    (mergeEvents start lookAhead onlineEvents offlineEvents deletedEvents).Perm
      ((onlineEvents.map (markOfflineDeleted deletedEvents)).filter
          (fun e => !offlineEvents.any fun off => off.id == e.id) ++
        offlineEvents.filter fun e =>
          decide (inLookAheadWindow start (start + SECONDS_DAY * lookAhead) e)) := by
  constructor
  · intro h1 h2
    subst h1; subst h2
    rw [mergeEvents_def, if_pos ⟨rfl, rfl⟩]
  · rw [mergeEvents_def]
    by_cases hcase : offlineEvents.length = 0 ∧ deletedEvents.length = 0
    · rw [if_pos hcase]
      obtain ⟨h1, h2⟩ := hcase
      rw [List.length_eq_zero] at h1 h2
      subst h1; subst h2
      rw [markOfflineDeleted_map_nil]
      simp
    · rw [if_neg hcase, unmodified_filter_eq, marked_eq,
        period_filter_eq _ _ _ hdur]
      exact List.perm_insertionSort eventLE _

/-- Witness for mergeEvents_merges at a concrete input. -/
theorem mergeEvents_merges_witness :
    (mergeEvents 0 1 [⟨1, 10, 0, false⟩] [⟨3, 2, 1, false⟩] [1]).Perm
      ((([⟨1, 10, 0, false⟩] : List CalendarEvent).map (markOfflineDeleted [1])).filter
          (fun e => !([⟨3, 2, 1, false⟩] : List CalendarEvent).any fun off => off.id == e.id) ++
        ([⟨3, 2, 1, false⟩] : List CalendarEvent).filter fun e =>
          decide (inLookAheadWindow 0 (0 + SECONDS_DAY * 1) e)) :=
  (mergeEvents_merges 0 1 [⟨1, 10, 0, false⟩] [⟨3, 2, 1, false⟩] [1] (by decide)).2

/-- Claim C6 counterexample: with no offline-modified and no offline-deleted
events, mergeEvents returns the online list unchanged, which need not be
sorted, so the merged list stored in the events field is not always sorted. -/
theorem mergeEvents_not_always_sorted :
    ¬ List.Sorted eventLE
        (mergeEvents 0 0 [⟨1, 10, 0, false⟩, ⟨2, 3, 0, false⟩] [] []) := by
  decide

/-- Claim C6 amended: whenever there is at least one offline-modified or
offline-deleted event, the merged list produced by mergeEvents is sorted in
the calendar event sort order; with neither, the online list is returned
unchanged and is sorted only if it already was. -/
theorem mergeEvents_sorted (start lookAhead : Int)
    (onlineEvents offlineEvents : List CalendarEvent) (deletedEvents : List Int)
    (h : offlineEvents ≠ [] ∨ deletedEvents ≠ []) :
    List.Sorted eventLE (mergeEvents start lookAhead onlineEvents offlineEvents deletedEvents) := by
  rw [mergeEvents_def, if_neg (by rcases h with h | h <;> simp [List.length_eq_zero, h])]
  exact List.sorted_insertionSort eventLE _

/-- Witness for mergeEvents_sorted at a concrete input. -/
theorem mergeEvents_sorted_witness :
    List.Sorted eventLE (mergeEvents 0 1 [⟨1, 10, 0, false⟩, ⟨2, 3, 0, false⟩] [] [5]) :=
  mergeEvents_sorted 0 1 [⟨1, 10, 0, false⟩, ⟨2, 3, 0, false⟩] [] [5] (Or.inr (by decide))

/-! ### Claim C10: the undelete-event observer -/

/-- Claim C10: the undelete-event observer, on a notification carrying an
eventId, clears the deleted flag exactly on the online event with that id,
removes exactly that id from the deleted-events list, and leaves every other
event, every other deleted-events entry and all remaining component state
unchanged; a notification without an eventId changes nothing. -/
theorem undeleteEventObserver_frame (s : UpcomingEventsState) (d : UpdatedEventData)
    (hid : d.eventId ≠ 0)
    (hon : (s.onlineEvents.map fun e => e.id).Nodup)
    (hdel : s.deletedEvents.Nodup) :
    (undeleteEventObserverHandler none s = s) ∧
    ((undeleteEventObserverHandler (some d) s).onlineEvents =
        s.onlineEvents.map fun e =>
          if e.id = d.eventId then { e with deleted := false } else e) ∧
    ((undeleteEventObserverHandler (some d) s).deletedEvents =
        s.deletedEvents.filter fun x => x != d.eventId) ∧
    (undeleteEventObserverHandler (some d) s).events = s.events ∧
    (undeleteEventObserverHandler (some d) s).filteredEvents = s.filteredEvents ∧
    (undeleteEventObserverHandler (some d) s).offlineEvents = s.offlineEvents ∧
    (undeleteEventObserverHandler (some d) s).lookAhead = s.lookAhead ∧
    (undeleteEventObserverHandler (some d) s).loaded = s.loaded := by
  simp only [undeleteEventObserverHandler, if_neg hid]
  refine ⟨trivial, ?_, ?_, trivial, trivial, trivial, trivial, trivial⟩
  · exact undeleteEventList_eq_map d.eventId s.onlineEvents hon
  · exact hdel.erase_eq_filter d.eventId

/-- Witness for undeleteEventObserver_frame at a concrete state. -/
theorem undeleteEventObserver_frame_witness :
    (undeleteEventObserverHandler (some ⟨7⟩)
        ⟨[], [], [⟨7, 1, 0, true⟩, ⟨8, 2, 0, true⟩], [], [7, 9], 3, true⟩).deletedEvents =
      ([7, 9] : List Int).filter fun x => x != (7 : Int) :=
  (undeleteEventObserver_frame ⟨[], [], [⟨7, 1, 0, true⟩, ⟨8, 2, 0, true⟩], [], [7, 9], 3, true⟩
    ⟨7⟩ (by decide) (by decide) (by decide)).2.2.1

/-! ## Email-signup page -/

/-- Signup settings returned by auth_email_get_signup_settings; only the
field that create reads is modelled. An empty string models an absent
recaptcha public key. -/
structure SignupSettings where
  recaptchapublickey : String
deriving DecidableEq, Repr

/-- Result of the auth_email_signup_user web service. The warnings list holds
the warning messages; an absent warnings field is modelled as the empty
list. -/
structure SignupUserResult where
  success : Bool
  warnings : List String
deriving DecidableEq, Repr

/-- Observable outcome of one run of create. -/
inductive CreateOutcome
  | scrolledToInputError
  | invalidFormModal
  | successAlert
  | warningModal (msg : String)
  | userNotAddedModal
  | wsErrorModal
deriving DecidableEq, Repr

/-- Run summary of create: whether the auth_email_signup_user request was
sent, and what the user was shown. -/
structure CreateRun where
  requestSent : Bool
  outcome : CreateOutcome
deriving DecidableEq, Repr

/-- JS truthiness of the optional recaptcha public key, as read by create. -/
def recaptchaKeyTruthy (settings : Option SignupSettings) : Bool :=
  match settings with
  | some st => st.recaptchapublickey != ""
  | none => false

/-- Embedding of CoreLoginEmailSignupPage.create. The form validity, the
scroll-to-error lookup and the web-service call are passed in as explicit
results. -/
def create (formValid : Bool) (settings : Option SignupSettings) (recaptcharesponse : String)
    (scrollFoundError : Bool) (ws : Except Unit SignupUserResult) : CreateRun :=
  if !formValid || (recaptchaKeyTruthy settings && recaptcharesponse == "") then
    ⟨false, if scrollFoundError then .scrolledToInputError else .invalidFormModal⟩
  else
    match ws with
    | .error _ => ⟨true, .wsErrorModal⟩
    | .ok result =>
      if result.success then ⟨true, .successAlert⟩
      else
        match result.warnings with
        | [] => ⟨true, .userNotAddedModal⟩
        | w :: _ =>
          ⟨true, .warningModal
            (if w = "incorrect-captcha-sol" then "core.login.recaptchaincorrect" else w)⟩

lemma create_blocked_eq (formValid : Bool) (settings : Option SignupSettings)
    (recaptcharesponse : String) (scrollFoundError : Bool) (ws : Except Unit SignupUserResult)
    (h : (!formValid || (recaptchaKeyTruthy settings && recaptcharesponse == "")) = true) :
    create formValid settings recaptcharesponse scrollFoundError ws =
      ⟨false, if scrollFoundError then .scrolledToInputError else .invalidFormModal⟩ := by
  unfold create
  rw [if_pos h]

lemma create_sent_of_not_blocked (formValid : Bool) (settings : Option SignupSettings)
    (recaptcharesponse : String) (scrollFoundError : Bool) (ws : Except Unit SignupUserResult)
    (h : (!formValid || (recaptchaKeyTruthy settings && recaptcharesponse == "")) = false) :
    (create formValid settings recaptcharesponse scrollFoundError ws).requestSent = true := by
  unfold create
  rw [if_neg (by simp [h])]
  cases ws with
  | error e => rfl
  | ok result =>
    by_cases hs : result.success = true
    · simp [hs]
    · cases hw : result.warnings <;> simp [hs, hw]

lemma blocked_iff (formValid : Bool) (settings : Option SignupSettings) (r : String) :
    (!formValid || (recaptchaKeyTruthy settings && r == "")) = false ↔
      (formValid = true ∧
        ∀ st, settings = some st → st.recaptchapublickey ≠ "" → r ≠ "") := by
  cases formValid <;> cases settings <;>
    simp [recaptchaKeyTruthy]

/-! ### Claim C7: form-validity gating of signup submission -/

/-- Claim C7: create sends the auth_email_signup_user request exactly when the
signup form is valid and, when the server settings declare a recaptcha public
key, a non-empty captcha response is present; otherwise no request is sent
and an error is shown instead (the first invalid input is highlighted, or an
error modal appears when none is found). -/
theorem create_gated (formValid : Bool) (settings : Option SignupSettings)
    (recaptcharesponse : String) (scrollFoundError : Bool)
    (ws : Except Unit SignupUserResult) :
    ((create formValid settings recaptcharesponse scrollFoundError ws).requestSent = true ↔
      (formValid = true ∧
        ∀ st, settings = some st → st.recaptchapublickey ≠ "" → recaptcharesponse ≠ "")) ∧
    ((create formValid settings recaptcharesponse scrollFoundError ws).requestSent = false →
      (create formValid settings recaptcharesponse scrollFoundError ws).outcome =
          CreateOutcome.scrolledToInputError ∨
        (create formValid settings recaptcharesponse scrollFoundError ws).outcome =
          CreateOutcome.invalidFormModal) := by
  by_cases hb : (!formValid || (recaptchaKeyTruthy settings && recaptcharesponse == "")) = true
  · rw [create_blocked_eq formValid settings recaptcharesponse scrollFoundError ws hb]
    constructor
    · constructor
      · intro hsent
        cases hsent
      · intro hrhs
        have := (blocked_iff formValid settings recaptcharesponse).mpr hrhs
        rw [hb] at this
        cases this
    · intro _
      cases scrollFoundError
      · right; rfl
      · left; rfl
  · have hb' : (!formValid || (recaptchaKeyTruthy settings && recaptcharesponse == "")) = false := by
      cases hbv : (!formValid || (recaptchaKeyTruthy settings && recaptcharesponse == ""))
      · rfl
      · exact absurd hbv hb
    have hsent := create_sent_of_not_blocked formValid settings recaptcharesponse
      scrollFoundError ws hb'
    rw [hsent]
    constructor
    · constructor
      · intro _
        exact (blocked_iff formValid settings recaptcharesponse).mp hb'
      · intro _
        rfl
    · intro hfalse
      cases hfalse

/-- Witness for create_gated at a concrete input: with a valid form, a
declared recaptcha key and a non-empty captcha response the request is
sent. -/
theorem create_gated_witness :
    (create true (some ⟨"key"⟩) "resp" false (.ok ⟨true, []⟩)).requestSent = true :=
  ((create_gated true (some ⟨"key"⟩) "resp" false (.ok ⟨true, []⟩)).1).mpr
    (by constructor
        · rfl
        · intro st hst
          cases hst
          decide)

/-! ### Claim C9: atomicity of verifyAge on web-service error -/

/-- State of the email-signup page read or written by verifyAge. The
signUpCountry field is the value of the signup country form control, and
countryControl the value of the age-verification country control. -/
structure SignupPageState where
  isMinor : Bool
  ageDigitalConsentVerification : Option Bool
  signUpCountry : String
  countryControl : String
deriving DecidableEq, Repr

/-- Observable outcome of one run of verifyAge. -/
inductive VerifyAgeOutcome
  | invalidFormModal
  | verifyErrorModal
  | formSubmitted
deriving DecidableEq, Repr

/-- Embedding of CoreLoginEmailSignupPage.verifyAge. The validity of the age
form and the core_auth_is_minor call are passed in as explicit results; the
boolean in the call result is the status field (whether the user is a
minor). -/
def verifyAge (s : SignupPageState) (formValid : Bool) (ws : Except Unit Bool) :
    SignupPageState × VerifyAgeOutcome :=
  if formValid = false then (s, .invalidFormModal)
  else
    match ws with
    | .error _ => (s, .verifyErrorModal)
    | .ok status =>
      if status then ({ s with isMinor := true }, .formSubmitted)
      else
        let s1 := if s.countryControl ≠ "" then { s with signUpCountry := s.countryControl } else s
        ({ s1 with ageDigitalConsentVerification := some false }, .formSubmitted)

/-- Claim C9: in a run where the age form is valid (so the core_auth_is_minor
call is made) and the call fails, verifyAge leaves the whole page state
unchanged, in particular isMinor, ageDigitalConsentVerification and the
signup country control, and only an error message is shown. -/
theorem verifyAge_error_atomic (s : SignupPageState) :
    verifyAge s true (.error ()) = (s, VerifyAgeOutcome.verifyErrorModal) := rfl

/-! ## Site-plugins helper service -/

/-- Strip the first occurrence of the pattern from a character list, as the
JavaScript String.replace with an empty replacement does. -/
def stripFirst (pat : List Char) : List Char → List Char
  | [] => []
  | c :: rest =>
    if pat.isPrefixOf (c :: rest) then (c :: rest).drop pat.length
    else c :: stripFirst pat rest

/-- JavaScript s.replace(pat, empty string): remove the first occurrence of
pat from s. -/
def replaceFirst (s pat : String) : String :=
  if pat = "" then s else ⟨stripFirst pat.data s.data⟩

/-- Site plugin as returned by tool_mobile_get_plugins_supporting_mobile. The
handlers field is the raw handler-manifest string (empty models absent) and
parsedHandlers caches its parse result: none when not yet parsed, some none
when parsing returned null, some (some keys) for an object with those
keys. -/
structure SitePlugin where
  component : String
  addon : String
  handlers : String
  parsedHandlers : Option (Option (List String))
deriving DecidableEq, Repr

/-- Modelled from the spec: CoreSitePluginsProvider.getHandlerUniqueName (the
siteplugins provider is not in src); the spec describes "keying handlers by
name", a unique name derived from the plugin and the handler name. -/
def getHandlerUniqueName (plugin : SitePlugin) (handlerName : String) : String :=
  plugin.component ++ "_" ++ handlerName

/-- Embedding of getPrefixForStrings. -/
def getPrefixForStrings (addon : String) : String :=
  if addon ≠ "" then "plugin." ++ addon ++ "." else ""

/-- Embedding of getPrefixedString. -/
def getPrefixedString (addon key : String) : String :=
  getPrefixForStrings addon ++ key

/-- Delegates a site-plugin handler can be registered into. -/
inductive DelegateReg
  | mainMenu
  | courseModule
  | modulePrefetch
  | user
  | courseOptions
  | courseFormat
  | userProfileField
deriving DecidableEq, Repr

/-- Result of a handler init call; the token stands for the data of the
getContent result and the init JS. -/
structure InitResult where
  token : String
deriving DecidableEq, Repr

/-- Display data of a handler manifest entry. -/
structure DisplayData where
  title : String
deriving DecidableEq, Repr

/-- Styles declaration of a handler manifest entry; an empty url models a
declared styles object without a usable URL. -/
structure HandlerStyles where
  url : String
  version : Int
deriving DecidableEq, Repr

/-- Handler manifest entry (handlerSchema). Empty strings model an absent
init or method; an empty list models absent or empty offlinefunctions. -/
structure HandlerSchema where
  delegate : String
  displaydata : Option DisplayData
  method : String
  offlinefunctions : List String
  styles : Option HandlerStyles
  init : String
deriving DecidableEq, Repr

/-- Embedding of registerMainMenuHandler: the delegate registrations
performed, and the returned identifier (none models returning undefined). -/
def registerMainMenuHandler (plugin : SitePlugin) (handlerName : String) (hs : HandlerSchema) :
    List DelegateReg × Option String :=
  match hs.displaydata with
  | none => ([], none)
  | some _ => ([DelegateReg.mainMenu], some (getHandlerUniqueName plugin handlerName))

/-- Embedding of registerModuleHandler: registers the module handler and,
when offlinefunctions has at least one key, also the module-prefetch
handler; returns the module name. -/
def registerModuleHandler (plugin : SitePlugin) (handlerName : String) (hs : HandlerSchema) :
    List DelegateReg × Option String :=
  match hs.displaydata with
  | none => ([], none)
  | some _ =>
    ([DelegateReg.courseModule] ++
        (if hs.offlinefunctions ≠ [] then [DelegateReg.modulePrefetch] else []),
      some (replaceFirst plugin.component "mod_"))

/-- Embedding of registerUserProfileHandler. -/
def registerUserProfileHandler (plugin : SitePlugin) (handlerName : String) (hs : HandlerSchema) :
    List DelegateReg × Option String :=
  match hs.displaydata with
  | none => ([], none)
  | some _ => ([DelegateReg.user], some (getHandlerUniqueName plugin handlerName))

/-- Embedding of registerCourseOptionHandler. -/
def registerCourseOptionHandler (plugin : SitePlugin) (handlerName : String) (hs : HandlerSchema) :
    List DelegateReg × Option String :=
  match hs.displaydata with
  | none => ([], none)
  | some _ => ([DelegateReg.courseOptions], some (getHandlerUniqueName plugin handlerName))

/-- Embedding of registerCourseFormatHandler: registers unconditionally and
returns the format name. -/
def registerCourseFormatHandler (plugin : SitePlugin) (handlerName : String)
    (hs : HandlerSchema) : List DelegateReg × Option String :=
  ([DelegateReg.courseFormat], some (replaceFirst plugin.component "format_"))

/-- Embedding of registerUserProfileFieldHandler: requires a method, executes
it (the methodCall result is passed in), registers the field handler on
success and returns the field type; a failure is caught and the promise
resolves with undefined. -/
def registerUserProfileFieldHandler (plugin : SitePlugin) (handlerName : String)
    (hs : HandlerSchema) (methodCall : Except Unit Unit) : List DelegateReg × Option String :=
  if hs.method = "" then ([], none)
  else
    match methodCall with
    | .ok _ =>
      ([DelegateReg.userProfileField], some (replaceFirst plugin.component "profilefield_"))
    | .error _ => ([], none)

/-- The switch on handlerSchema.delegate inside registerHandler. -/
def dispatchRegistration (plugin : SitePlugin) (handlerName : String) (hs : HandlerSchema)
    (methodCall : Except Unit Unit) : List DelegateReg × Option String :=
  if hs.delegate = "CoreMainMenuDelegate" then
    registerMainMenuHandler plugin handlerName hs
  else if hs.delegate = "CoreCourseModuleDelegate" then
    registerModuleHandler plugin handlerName hs
  else if hs.delegate = "CoreUserDelegate" then
    registerUserProfileHandler plugin handlerName hs
  else if hs.delegate = "CoreCourseOptionsDelegate" then
    registerCourseOptionHandler plugin handlerName hs
  else if hs.delegate = "CoreCourseFormatDelegate" then
    registerCourseFormatHandler plugin handlerName hs
  else if hs.delegate = "CoreUserProfileFieldDelegate" then
    registerUserProfileFieldHandler plugin handlerName hs methodCall
  else ([], none)

/-- Embedding of executeHandlerInit: without an init method the promise
resolves with an empty result, otherwise with the outcome of the init
getContent call and its JS. -/
def executeHandlerInit (hs : HandlerSchema) (initCall : Except Unit InitResult) :
    Except Unit InitResult :=
  if hs.init = "" then .ok ⟨""⟩ else initCall

/-- Handler data stored in the site-plugins provider map. -/
structure HandlerData where
  plugin : SitePlugin
  handlerName : String
  handlerSchema : HandlerSchema
  initResult : InitResult
deriving DecidableEq, Repr

/-- Run summary of registerHandler: the delegate registrations performed, the
entry stored in the site-plugin handler map (none when nothing was stored)
and whether handler styles were loaded. -/
structure RegisterHandlerResult where
  registrations : List DelegateReg
  stored : Option (String × HandlerData)
  loadedStyles : Bool
deriving DecidableEq, Repr

/-- Embedding of registerHandler: waits for the styles download (whose errors
are caught) and the init call, loads the styles when CSS code was obtained,
dispatches on the delegate string and stores the handler data under the
returned identifier when that identifier is truthy. A failing init call makes
the surrounding promise fail before any registration. -/
def registerHandler (plugin : SitePlugin) (handlerName : String) (hs : HandlerSchema)
    (cssResult : Except Unit String) (initCall : Except Unit InitResult)
    (methodCall : Except Unit Unit) : RegisterHandlerResult :=
  match executeHandlerInit hs initCall with
  | .error _ => ⟨[], none, false⟩
  | .ok initResult =>
    let loadedStyles :=
      match cssResult with
      | .ok c => c != ""
      | .error _ => false
    let rr := dispatchRegistration plugin handlerName hs methodCall
    let stored :=
      match rr.2 with
      | some u =>
        if u ≠ "" then some (u, (⟨plugin, handlerName, hs, initResult⟩ : HandlerData)) else none
      | none => none
    ⟨rr.1, stored, loadedStyles⟩

/-- The six per-feature delegates the spec lists, keyed by the delegate name
a handler manifest may carry. -/
def delegateForString (s : String) : Option DelegateReg :=
  if s = "CoreMainMenuDelegate" then some DelegateReg.mainMenu
  else if s = "CoreCourseModuleDelegate" then some DelegateReg.courseModule
  else if s = "CoreUserDelegate" then some DelegateReg.user
  else if s = "CoreCourseOptionsDelegate" then some DelegateReg.courseOptions
  else if s = "CoreCourseFormatDelegate" then some DelegateReg.courseFormat
  else if s = "CoreUserProfileFieldDelegate" then some DelegateReg.userProfileField
  else none

/-- Environment of one downloadStyles run: the site URL, the URL helpers, the
style files currently cached for the handler component, and the download and
HTTP effects. -/
structure StylesEnv where
  siteUrl : String
  isAbsoluteURL : String → Bool
  concatenatePaths : String → String → String
  cachedFiles : List String
  downloadUrl : String → Except Unit String
  httpGet : String → Except Unit (Option String)

/-- Run summary of downloadStyles: the cached files removed, the URL passed
to the file-pool download (none when nothing is downloaded) and the promise
result. -/
structure DownloadStylesRun where
  removedFiles : List String
  downloadedUrl : Option String
  result : Except Unit String

/-- Embedding of downloadStyles. -/
def downloadStyles (env : StylesEnv) (hs : HandlerSchema) : DownloadStylesRun :=
  let url0 : Option String := hs.styles.map fun st => st.url
  let url : Option String :=
    match url0 with
    | some u =>
      if u ≠ "" ∧ env.isAbsoluteURL u = false then some (env.concatenatePaths env.siteUrl u)
      else some u
    | none => none
  let removed : List String :=
    env.cachedFiles.filter fun f =>
      match url with
      | some u => f != u
      | none => true
  let download : Option String × Except Unit String :=
    match url with
    | none => (none, .ok "")
    | some u =>
      if u = "" then (none, .ok "")
      else
        match env.downloadUrl u with
        | .error e => (some u, .error e)
        | .ok localUrl =>
          match env.httpGet localUrl with
          | .error e => (some u, .error e)
          | .ok (some text) => (some u, .ok text)
          | .ok none => (some u, .error ())
  ⟨removed, download.1, download.2⟩

/-- Site as seen by the site-plugins helper: the feature-disabled lookup and
whether the get-content web service is available. -/
structure CoreSiteModel where
  isFeatureDisabled : String → Bool
  getContentAvailable : Bool

/-- Embedding of isSitePluginEnabled. The parseJSON function stands for
CoreTextUtilsProvider.parseJSON with default null: none models a null parse
result, some keys an object with those keys. -/
def isSitePluginEnabled (parseJSON : String → Option (List String)) (site : CoreSiteModel)
    (plugin : SitePlugin) : Bool :=
  if !site.isFeatureDisabled ("sitePlugin_" ++ plugin.component ++ "_" ++ plugin.addon)
      && plugin.handlers != "" then
    match
      (match plugin.parsedHandlers with
       | some cached => cached
       | none => parseJSON plugin.handlers) with
    | some keys => keys.length != 0
    | none => false
  else false

/-- Embedding of fetchSitePlugins. The wsPlugins list is the plugins field of
the tool_mobile_get_plugins_supporting_mobile response. -/
def fetchSitePlugins (parseJSON : String → Option (List String)) (site : CoreSiteModel)
    (wsPlugins : List SitePlugin) : List SitePlugin :=
  if !site.getContentAvailable then []
  else wsPlugins.filter (isSitePluginEnabled parseJSON site)

/-! ### Helper lemmas for the site-plugins helper -/

lemma registerHandler_registrations (plugin : SitePlugin) (handlerName : String)
    (hs : HandlerSchema) (cssResult : Except Unit String) (initCall : Except Unit InitResult)
    (methodCall : Except Unit Unit) :
    (registerHandler plugin handlerName hs cssResult initCall methodCall).registrations =
      match executeHandlerInit hs initCall with
      | .error _ => []
      | .ok _ => (dispatchRegistration plugin handlerName hs methodCall).1 := by
  cases hE : executeHandlerInit hs initCall <;> simp [registerHandler, hE]

lemma dispatchRegistration_spec (plugin : SitePlugin) (handlerName : String)
    (hs : HandlerSchema) (methodCall : Except Unit Unit) :
    (((dispatchRegistration plugin handlerName hs methodCall).1.filter
        fun d => d != DelegateReg.modulePrefetch).length ≤ 1) ∧
    (∀ d ∈ (dispatchRegistration plugin handlerName hs methodCall).1,
      d ≠ DelegateReg.modulePrefetch → delegateForString hs.delegate = some d) ∧
    (delegateForString hs.delegate = none →
      (dispatchRegistration plugin handlerName hs methodCall).1 = []) := by
  unfold dispatchRegistration delegateForString
  split_ifs
  · unfold registerMainMenuHandler
    cases hs.displaydata <;> simp
  · unfold registerModuleHandler
    cases hs.displaydata <;> by_cases hoff : hs.offlinefunctions = [] <;> simp [hoff]
  · unfold registerUserProfileHandler
    cases hs.displaydata <;> simp
  · unfold registerCourseOptionHandler
    cases hs.displaydata <;> simp
  · unfold registerCourseFormatHandler
    simp
  · unfold registerUserProfileFieldHandler
    by_cases hm : hs.method = "" <;> cases methodCall <;> simp [hm]
  · simp

/-! ### Claim C1: dispatch of registerHandler over the delegates -/

/-- Example plugin for the registration claims. -/
def pluginCex : SitePlugin := ⟨"local_foo", "foo", "m", none⟩

/-- Handler manifest entry naming the main-menu delegate but lacking
displaydata. -/
def hsNoDisplay : HandlerSchema := ⟨"CoreMainMenuDelegate", none, "", [], none, ""⟩

/-- Claim C1 counterexample: a handler whose delegate string names the main
menu delegate but which lacks displaydata is processed by registerHandler yet
produces no delegate registration at all, so a processed handler is not
always registered into exactly one of the six delegates. -/
theorem registerHandler_no_registration_cex :
    hsNoDisplay.delegate = "CoreMainMenuDelegate" ∧
      (registerHandler pluginCex "h1" hsNoDisplay (.ok "") (.ok ⟨""⟩) (.ok ())).registrations
        = [] :=
  ⟨rfl, rfl⟩

/-- Claim C1 amended: registerHandler dispatches on the string value of
handlerSchema.delegate; at most one registration into the six per-feature
delegates is performed, any such registration goes into the delegate that
string names, and for any other delegate string no delegate registration is
performed. -/
theorem registerHandler_dispatch (plugin : SitePlugin) (handlerName : String)
    (hs : HandlerSchema) (cssResult : Except Unit String)
    (initCall : Except Unit InitResult) (methodCall : Except Unit Unit) :
    (((registerHandler plugin handlerName hs cssResult initCall methodCall).registrations.filter
        fun d => d != DelegateReg.modulePrefetch).length ≤ 1) ∧
    (∀ d ∈ (registerHandler plugin handlerName hs cssResult initCall methodCall).registrations,
      d ≠ DelegateReg.modulePrefetch → delegateForString hs.delegate = some d) ∧
    (delegateForString hs.delegate = none →
      (registerHandler plugin handlerName hs cssResult initCall methodCall).registrations
        = []) := by
  rw [registerHandler_registrations]
  cases hE : executeHandlerInit hs initCall with
  | error e => simp
  | ok ir => exact dispatchRegistration_spec plugin handlerName hs methodCall

/-- Example handler manifest entry with a delegate string naming none of the
six delegates. -/
def hsUnknownDelegate : HandlerSchema := ⟨"SomeOtherDelegate", some ⟨"t"⟩, "", [], none, ""⟩

/-- Witness for registerHandler_dispatch: a handler with an unknown delegate
string produces no registration. -/
theorem registerHandler_dispatch_witness :
    (registerHandler pluginCex "h2" hsUnknownDelegate (.ok "") (.ok ⟨""⟩) (.ok ())).registrations
      = [] :=
  (registerHandler_dispatch pluginCex "h2" hsUnknownDelegate (.ok "") (.ok ⟨""⟩)
    (.ok ())).2.2 rfl

/-! ### Claim C2: the handler map store in registerHandler -/

/-- Example course-module plugin. -/
def pluginMod : SitePlugin := ⟨"mod_foo", "foo", "m", none⟩

/-- Example course-module handler manifest entry. -/
def hsModCex : HandlerSchema := ⟨"CoreCourseModuleDelegate", some ⟨"t"⟩, "", [], none, ""⟩

/-- Claim C2 counterexample: for a course-module handler the key stored in
the handler map is the module name returned by registerModuleHandler, not
the handler unique name derived from the plugin and the handler name. -/
theorem registerHandler_stored_key_cex :
    ((registerHandler pluginMod "myhandler" hsModCex (.ok "") (.ok ⟨""⟩) (.ok ())).stored.map
        fun e => e.1) = some "foo" ∧
      getHandlerUniqueName pluginMod "myhandler" = "mod_foo_myhandler" ∧
      ("foo" : String) ≠ "mod_foo_myhandler" :=
  ⟨rfl, rfl, by decide⟩

/-- Claim C2 amended: when the init call succeeds, registerHandler stores the
handler data (plugin, handler name, handler schema, init result) exactly when
the delegate-specific registration function returns a non-empty identifier
string, and the key stored is that identifier. -/
theorem registerHandler_stores (plugin : SitePlugin) (handlerName : String) (hs : HandlerSchema)
    (cssResult : Except Unit String) (initCall : Except Unit InitResult)
    (methodCall : Except Unit Unit) (ir : InitResult)
    (hinit : executeHandlerInit hs initCall = .ok ir) :
    ∀ k d,
      (registerHandler plugin handlerName hs cssResult initCall methodCall).stored
          = some (k, d) ↔
        ((dispatchRegistration plugin handlerName hs methodCall).2 = some k ∧ k ≠ "" ∧
          d = ⟨plugin, handlerName, hs, ir⟩) := by
  intro k d
  simp only [registerHandler, hinit]
  cases hret : (dispatchRegistration plugin handlerName hs methodCall).2 with
  | none => simp
  | some u =>
    dsimp only
    by_cases hu : u = ""
    · subst hu
      rw [if_neg (fun h => h rfl)]
      constructor
      · intro h
        exact Option.noConfusion h
      · rintro ⟨h1, h2, h3⟩
        cases h1
        exact absurd rfl h2
    · simp only [if_pos hu, Option.some.injEq, Prod.mk.injEq]
      constructor
      · rintro ⟨h1, h2⟩
        exact ⟨h1 ▸ rfl, h1 ▸ hu, h2.symm⟩
      · rintro ⟨h1, h2, h3⟩
        cases h1
        exact ⟨rfl, h3.symm⟩

/-- Witness for registerHandler_stores at a concrete module handler. -/
theorem registerHandler_stores_witness :
    (registerHandler pluginMod "myhandler" hsModCex (.ok "") (.ok ⟨""⟩) (.ok ())).stored
      = some ("foo", ⟨pluginMod, "myhandler", hsModCex, ⟨""⟩⟩) :=
  ((registerHandler_stores pluginMod "myhandler" hsModCex (.ok "") (.ok ⟨""⟩) (.ok ())
      ⟨""⟩ rfl) "foo" ⟨pluginMod, "myhandler", hsModCex, ⟨""⟩⟩).mpr ⟨rfl, by decide, rfl⟩

/-! ### Claim C8: prefetch registration of module handlers -/

/-- Example course-module handler manifest entry with offline functions. -/
def hsModOffline : HandlerSchema :=
  ⟨"CoreCourseModuleDelegate", some ⟨"t"⟩, "", ["f1"], none, ""⟩

/-- Claim C8: for a course-module handler providing displaydata,
registerModuleHandler registers the module handler in the module delegate,
and registers a module-prefetch handler in the prefetch delegate exactly when
handlerSchema.offlinefunctions is present with at least one key. -/
theorem registerModuleHandler_prefetch (plugin : SitePlugin) (handlerName : String)
    (hs : HandlerSchema) (dd : DisplayData) (hdd : hs.displaydata = some dd) :
    DelegateReg.courseModule ∈ (registerModuleHandler plugin handlerName hs).1 ∧
      (DelegateReg.modulePrefetch ∈ (registerModuleHandler plugin handlerName hs).1 ↔
        hs.offlinefunctions ≠ []) := by
  simp only [registerModuleHandler, hdd]
  by_cases hoff : hs.offlinefunctions = [] <;> simp [hoff]

/-- Witness for registerModuleHandler_prefetch at a concrete input. -/
theorem registerModuleHandler_prefetch_witness :
    DelegateReg.modulePrefetch ∈ (registerModuleHandler pluginMod "h" hsModOffline).1 :=
  ((registerModuleHandler_prefetch pluginMod "h" hsModOffline ⟨"t"⟩ rfl).2).mpr (by decide)

/-! ### Claim C3: fetchSitePlugins returns exactly the enabled site plugins -/

lemma isSitePluginEnabled_iff (parseJSON : String → Option (List String))
    (site : CoreSiteModel) (p : SitePlugin) (hfresh : p.parsedHandlers = none) :
    isSitePluginEnabled parseJSON site p = true ↔
      (site.isFeatureDisabled ("sitePlugin_" ++ p.component ++ "_" ++ p.addon) = false ∧
        p.handlers ≠ "" ∧ ∃ keys, parseJSON p.handlers = some keys ∧ keys ≠ []) := by
  unfold isSitePluginEnabled
  rw [hfresh]
  cases hdis : site.isFeatureDisabled ("sitePlugin_" ++ p.component ++ "_" ++ p.addon) <;>
    by_cases hh : p.handlers = "" <;>
      cases hp : parseJSON p.handlers <;>
        simp [hdis, hh, hp, List.length_eq_zero]

/-- Claim C3: fetchSitePlugins returns exactly the enabled site plugins. When
the get-content web service is available, a response plugin is kept exactly
when its site-plugin feature is not disabled, it declares handlers, and the
handlers manifest parses to an object with at least one key; when the web
service is unavailable the empty list is returned whatever the response would
hold. -/
theorem fetchSitePlugins_enabled (parseJSON : String → Option (List String))
    (site : CoreSiteModel) (wsPlugins : List SitePlugin)
    (hfresh : ∀ p ∈ wsPlugins, p.parsedHandlers = none) :
    (site.getContentAvailable = true →
      ∀ p, p ∈ fetchSitePlugins parseJSON site wsPlugins ↔
        (p ∈ wsPlugins ∧
          site.isFeatureDisabled ("sitePlugin_" ++ p.component ++ "_" ++ p.addon) = false ∧
          p.handlers ≠ "" ∧
          ∃ keys, parseJSON p.handlers = some keys ∧ keys ≠ [])) ∧
    (site.getContentAvailable = false →
      fetchSitePlugins parseJSON site wsPlugins = []) := by
  constructor
  · intro havail p
    unfold fetchSitePlugins
    rw [havail]
    simp only [Bool.not_true, Bool.false_eq_true, if_false, List.mem_filter]
    constructor
    · rintro ⟨hmem, henb⟩
      exact ⟨hmem, (isSitePluginEnabled_iff parseJSON site p (hfresh p hmem)).mp henb⟩
    · rintro ⟨hmem, hrest⟩
      exact ⟨hmem, (isSitePluginEnabled_iff parseJSON site p (hfresh p hmem)).mpr hrest⟩
  · intro hnavail
    unfold fetchSitePlugins
    rw [hnavail]
    rfl

/-- Example parse oracle for the fetch witness: maps one fixed manifest
string to an object with one key. -/
def parseJSONex : String → Option (List String) :=
  fun s => if s = "manifest1" then some ["h1"] else none

/-- Example site with nothing disabled and the get-content service
available. -/
def siteEx : CoreSiteModel := ⟨fun _ => false, true⟩

/-- Example enabled site plugin. -/
def pluginEnabledEx : SitePlugin := ⟨"mod_bar", "bar", "manifest1", none⟩

/-- Witness for fetchSitePlugins_enabled: the example plugin is kept. -/
theorem fetchSitePlugins_enabled_witness :
    pluginEnabledEx ∈ fetchSitePlugins parseJSONex siteEx [pluginEnabledEx] :=
  ((fetchSitePlugins_enabled parseJSONex siteEx [pluginEnabledEx] (by decide)).1 rfl
      pluginEnabledEx).mpr
    ⟨by decide, rfl, by decide, ⟨["h1"], rfl, by decide⟩⟩

/-! ### Claim C4: the styles cache of downloadStyles -/

lemma downloadStyles_removed_some (env : StylesEnv) (hs : HandlerSchema) (st : HandlerStyles)
    (hst : hs.styles = some st) (hu : st.url ≠ "") :
    (downloadStyles env hs).removedFiles =
      env.cachedFiles.filter fun f =>
        f != (if env.isAbsoluteURL st.url then st.url
              else env.concatenatePaths env.siteUrl st.url) := by
  cases habs : env.isAbsoluteURL st.url <;>
    simp [downloadStyles, hst, habs, hu]

lemma downloadStyles_noUrl (env : StylesEnv) (hs : HandlerSchema)
    (h : hs.styles = none ∨ ∃ st, hs.styles = some st ∧ st.url = "") :
    (downloadStyles env hs).result = Except.ok "" ∧
      (downloadStyles env hs).downloadedUrl = none := by
  rcases h with h | ⟨st, hst, hu⟩
  · simp [downloadStyles, h]
  · simp [downloadStyles, hst, hu]

/-- Claim C4: downloadStyles removes a previously cached style file of the
handler component exactly when its URL differs from the current styles URL of
the handler (made absolute when needed); and when the handler declares no
styles URL it resolves with the empty string without downloading anything. -/
theorem downloadStyles_cache_replace (env : StylesEnv) (hs : HandlerSchema) :
    (∀ st, hs.styles = some st → st.url ≠ "" →
      ∀ f, f ∈ (downloadStyles env hs).removedFiles ↔
        (f ∈ env.cachedFiles ∧
          f ≠ (if env.isAbsoluteURL st.url then st.url
               else env.concatenatePaths env.siteUrl st.url))) ∧
    ((∀ st, hs.styles = some st → st.url = "") →
      (downloadStyles env hs).result = Except.ok "" ∧
        (downloadStyles env hs).downloadedUrl = none) := by
  constructor
  · intro st hst hu f
    rw [downloadStyles_removed_some env hs st hst hu, List.mem_filter, bne_iff_ne]
  · intro hall
    apply downloadStyles_noUrl
    cases hst : hs.styles with
    | none => exact Or.inl rfl
    | some st => exact Or.inr ⟨st, rfl, hall st hst⟩

/-- Example downloadStyles environment: two cached style files, absolute
URLs, successful download and HTTP effects. -/
def stylesEnvEx : StylesEnv :=
  ⟨"site", fun _ => true, fun a b => a ++ "/" ++ b, ["a.css", "b.css"],
    fun _ => Except.ok "local", fun _ => Except.ok (some "css")⟩

/-- Example handler manifest entry declaring the styles URL a.css. -/
def hsStylesEx : HandlerSchema :=
  ⟨"CoreMainMenuDelegate", some ⟨"t"⟩, "", [], some ⟨"a.css", 1⟩, ""⟩

/-- Witness for downloadStyles_cache_replace: the cached file with a
different URL is removed, the one matching the current styles URL is kept. -/
theorem downloadStyles_cache_replace_witness :
    "b.css" ∈ (downloadStyles stylesEnvEx hsStylesEx).removedFiles ∧
      "a.css" ∉ (downloadStyles stylesEnvEx hsStylesEx).removedFiles := by
  have h := (downloadStyles_cache_replace stylesEnvEx hsStylesEx).1 ⟨"a.css", 1⟩ rfl (by decide)
  constructor
  · exact (h "b.css").mpr ⟨by decide, by decide⟩
  · intro hmem
    exact ((h "a.css").mp hmem).2 (by rfl)
